import Mathlib

/-!
Verification of the UHD logging core (`src/host/lib/utils/log.cpp`) against its
natural-language specification. The C++ file is shallowly embedded: each
relevant function becomes a Lean definition over explicit state, and the
claims of the specification become theorems about those definitions.
-/

namespace UhdLog

/-- Modelled from the spec: the severity scale declared in `uhd/utils/log.hpp`
(the header is part of the repository but not under `src/`). Ordered
enumeration `{trace, debug, info, warning, error, fatal, off}` with numeric
ordinals 0..6; comparisons are numeric on ordinal position. -/
inductive severity_level where
  | trace
  | debug
  | info
  | warning
  | error
  | fatal
  | off
deriving DecidableEq, Repr

/-- Numeric ordinal of a severity level (spec: comparisons are numeric on
ordinal position; `trace = 0`, ..., `fatal = 5`, `off = 6`). -/
def severity_level.toNat : severity_level → Nat
  | .trace => 0
  | .debug => 1
  | .info => 2
  | .warning => 3
  | .error => 4
  | .fatal => 5
  | .off => 6

/-- The severity level with a given ordinal, when the ordinal is in range.
Embeds the C++ cast `uhd::log::severity_level(std::stoi(...))` together with
the range check used at the call site. -/
def severity_level.of_ordinal : Nat → Option severity_level
  | 0 => some .trace
  | 1 => some .debug
  | 2 => some .info
  | 3 => some .warning
  | 4 => some .error
  | 5 => some .fatal
  | 6 => some .off
  | _ => none

/-- Modelled from the spec: the textual name of a severity level, as produced
by the stream insertion operator for `severity_level` (declared in
`uhd/utils/log.hpp`, not under `src/`; the spec states the file and console
sinks print the severity name). -/
def severity_level.name : severity_level → String
  | .trace => "trace"
  | .debug => "debug"
  | .info => "info"
  | .warning => "warning"
  | .error => "error"
  | .fatal => "fatal"
  | .off => "off"

/-- A log record (`uhd::log::logging_info`): timestamp, severity, source
location, component tag, thread identifier, message text. Timestamp and
thread id are kept as the strings their formatters produce. -/
structure logging_info where
  time : String
  verbosity : severity_level
  file : String
  line : Nat
  component : String
  thread_id : String
  message : String
deriving DecidableEq, Repr

/-- `path_to_filename` from log.cpp: `path.substr(path.find_last_of("/\\") + 1)`,
i.e. the characters after the last `/` or `\` (the whole string when neither
occurs, since `npos + 1 == 0`). -/
def path_to_filename (path : String) : String :=
  String.mk ((path.data.reverse.takeWhile (fun c => !(c = '/' || c = '\\'))).reverse)

/-- `INT_MAX`, the largest value `std::stoi` can return. -/
def INT_MAX : Nat := 2147483647

/-- `std::stoi` as used in `_get_log_level`: the call site guarantees the
first character is a digit (no sign), so the parsed value is that of the
leading run of digits. When that value exceeds `INT_MAX`, `std::stoi` throws
`std::out_of_range`; `none` models the throw. -/
def stoi (s : String) : Option Nat :=
  let n := (s.data.takeWhile Char.isDigit).foldl (fun n c => 10 * n + (c.toNat - 48)) 0
  if n ≤ INT_MAX then some n else none

/-- Whether `std::isdigit(log_level_str[0])` holds: the first character is a
decimal digit (`[0]` on an empty `std::string` reads the null terminator,
which is not a digit). -/
def first_char_is_digit (s : String) : Bool :=
  match s.data with
  | [] => false
  | c :: _ => c.isDigit

/-- Result of `log_resource::_get_log_level`: the returned level, plus whether
the function emitted an internal error (`UHD_LOGGER_ERROR("LOG") << ...`). -/
structure get_log_level_result where
  level : severity_level
  errorLogged : Bool
deriving DecidableEq, Repr

/-- Outcome of a `_get_log_level` call: either the function returns a result,
or the `std::out_of_range` thrown by `std::stoi` propagates uncaught to the
caller (`raised`). -/
inductive get_log_level_outcome where
  | ret (result : get_log_level_result)
  | raised
deriving DecidableEq, Repr

/-- `log_resource::_get_log_level` from log.cpp. If the first character is a
digit, `std::stoi` runs: a value above `INT_MAX` makes it throw
`std::out_of_range`, which nothing in `_get_log_level` catches (`raised`);
otherwise the value is cast to a level and accepted when it lies in
`[trace, fatal]`, and an out-of-range value logs an internal error and
returns the previous level. Otherwise the whole string is compared
case-sensitively against the seven enumerator names; any other string
returns the previous level (without logging). -/
def get_log_level (log_level_str : String) (previous_level : severity_level) :
    get_log_level_outcome :=
  if first_char_is_digit log_level_str then
    match stoi log_level_str with
    | none => .raised
    | some n =>
      if severity_level.trace.toNat ≤ n ∧ n ≤ severity_level.fatal.toNat then
        .ret { level := (severity_level.of_ordinal n).getD previous_level,
               errorLogged := false }
      else
        .ret { level := previous_level, errorLogged := true }
  else if log_level_str = "trace" then .ret { level := .trace, errorLogged := false }
  else if log_level_str = "debug" then .ret { level := .debug, errorLogged := false }
  else if log_level_str = "info" then .ret { level := .info, errorLogged := false }
  else if log_level_str = "warning" then .ret { level := .warning, errorLogged := false }
  else if log_level_str = "error" then .ret { level := .error, errorLogged := false }
  else if log_level_str = "fatal" then .ret { level := .fatal, errorLogged := false }
  else if log_level_str = "off" then .ret { level := .off, errorLogged := false }
  else .ret { level := previous_level, errorLogged := false }

/-- Whether `_get_log_level` accepts the input, i.e. the input is a numeric
ordinal that `std::stoi` can return and that lies within `[trace, fatal]`,
or one of the seven enumerator names (case-sensitive). -/
def parse_accepts (s : String) : Bool :=
  if first_char_is_digit s then
    match stoi s with
    | some n =>
      decide (severity_level.trace.toNat ≤ n ∧ n ≤ severity_level.fatal.toNat)
    | none => false
  else
    s = "trace" || s = "debug" || s = "info" || s = "warning" ||
    s = "error" || s = "fatal" || s = "off"

/-- The level a `_get_log_level` call yields for the constructor assignment
`this->global_level = _get_log_level(...)`: the returned level, or `none`
when the call raises (the exception then propagates out of the constructor). -/
def get_log_level_value (s : String) (previous_level : severity_level) :
    Option severity_level :=
  match get_log_level s previous_level with
  | .ret result => some result.level
  | .raised => none

/-- The global-threshold initialization performed by `log_resource::log_resource`:
start from `uhd::log::off`, optionally override from the `UHD_LOG_MIN_LEVEL`
macro (when the build defines it), then optionally override from the
`UHD_LOG_LEVEL` environment variable (when set and non-empty). `none` inputs
model an undefined macro / unset variable; a `none` result models an
exception from `_get_log_level` propagating out of the constructor. -/
def init_global_level (min_level_compiled : Option String)
    (log_level_env : Option String) : Option severity_level :=
  let g0 := severity_level.off
  let g1? := match min_level_compiled with
    | some s => get_log_level_value s g0
    | none => some g0
  match g1? with
  | none => none
  | some g1 =>
    match log_level_env with
    | some s => if s ≠ "" then get_log_level_value s g1 else some g1
    | none => some g1

/-- The state of a `uhd::_log::log` statement after its constructor ran:
the cached filter decision `_log_it` and the record fields captured when the
decision was true (`_log_info`; `none` when not captured). -/
structure log_statement where
  log_it : Bool
  log_info : Option logging_info
deriving DecidableEq, Repr

/-- `uhd::_log::log::log` (the constructor): evaluates
`verbosity >= log_rs().global_level` once, caches it in `_log_it`, and only
when true captures the record fields (timestamp, severity, file, line,
component, thread id). -/
def log_construct (verbosity : severity_level) (file : String) (line : Nat)
    (component : String) (thread_id : String) (time : String)
    (global_level : severity_level) : log_statement :=
  let log_it := decide (global_level.toNat ≤ verbosity.toNat)
  { log_it := log_it
    log_info :=
      if log_it then
        some { time := time, verbosity := verbosity, file := file, line := line,
               component := component, thread_id := thread_id, message := "" }
      else none }

/-- `uhd::_log::log::~log` (the destructor): when `_log_it` is set, finalize
the accumulated message into the record and push it onto the queue; the
result is the record submitted to `log_rs().push`, or `none` when nothing is
enqueued. -/
def log_destruct (st : log_statement) (message : String) : Option logging_info :=
  if st.log_it then
    (st.log_info.map (fun info => { info with message := message }))
  else none

/-- `std::map` operator `m[k] = v` on an association list: replace the value
at the first occurrence of the key, or append a fresh entry. -/
def map_assign {α : Type} (m : List (String × α)) (k : String) (v : α) :
    List (String × α) :=
  match m with
  | [] => [(k, v)]
  | (k2, v2) :: rest =>
    if k2 = k then (k, v) :: rest else (k2, v2) :: map_assign rest k v

/-- `std::map::find` on an association list. -/
def map_find {α : Type} (m : List (String × α)) (k : String) : Option α :=
  match m with
  | [] => none
  | (k2, v2) :: rest => if k2 = k then some v2 else map_find rest k

/-- The configuration state of `log_resource`: the global threshold, the
per-sink threshold map `logger_level`, and the sink registry `_loggers`.
Sink functions are opaque to the dispatcher, so their type is a parameter. -/
structure log_resource_state (α : Type) where
  global_level : severity_level
  logger_level : List (String × severity_level)
  loggers : List (String × α)
deriving DecidableEq, Repr

/-- `log_resource::add_logger`: `_loggers[key] = logger_fn`. -/
def add_logger {α : Type} (st : log_resource_state α) (key : String)
    (logger_fn : α) : log_resource_state α :=
  { st with loggers := map_assign st.loggers key logger_fn }

/-- `uhd::log::set_log_level`: `log_rs().global_level = level`. -/
def set_log_level {α : Type} (st : log_resource_state α)
    (level : severity_level) : log_resource_state α :=
  { st with global_level := level }

/-- `uhd::log::set_logger_level`: `log_rs().logger_level[key] = level`. -/
def set_logger_level {α : Type} (st : log_resource_state α) (key : String)
    (level : severity_level) : log_resource_state α :=
  { st with logger_level := map_assign st.logger_level key level }

/-- The per-record dispatch loop body of `log_resource::pop_task`: iterate the
registered sinks; for each, look its key up in `logger_level` and skip it when
an entry exists and `log_info.verbosity < level->second`; otherwise invoke it.
The result is the list of (key, sink) entries the record is delivered to. -/
def deliver_record {α : Type} (st : log_resource_state α)
    (log_info : logging_info) : List (String × α) :=
  st.loggers.filter (fun logger =>
    match map_find st.logger_level logger.1 with
    | some level => !(decide (log_info.verbosity.toNat < level.toNat))
    | none => true)

/-- The exit procedure of `log_resource::pop_task`: after the exit flag is
observed, pop every record remaining in the queue and dispatch it with the
same per-sink filtering as the main loop. The result lists every delivery
performed, as (key, record) pairs. -/
def pop_task_drain {α : Type} (st : log_resource_state α)
    (queue : List logging_info) : List (String × logging_info) :=
  (queue.map (fun r => (deliver_record st r).map (fun logger => (logger.1, r)))).flatten

/-- `PURPLE` from log.cpp. -/
def PURPLE : String := "\x1b[35;1m"

/-- `BLUE` from log.cpp. -/
def BLUE : String := "\x1b[34;1m"

/-- `GREEN` from log.cpp. -/
def GREEN : String := "\x1b[32;1m"

/-- `YELLOW` from log.cpp. -/
def YELLOW : String := "\x1b[33;1m"

/-- `RED` from log.cpp. -/
def RED : String := "\x1b[31;0m"

/-- `BRED` from log.cpp. -/
def BRED : String := "\x1b[31;1m"

/-- `RESET_COLORS` from log.cpp. -/
def RESET_COLORS : String := "\x1b[39;0m"

/-- `verbosity_color` from log.cpp. -/
def verbosity_color (level : severity_level) : String :=
  match level with
  | .trace => PURPLE
  | .debug => BLUE
  | .info => GREEN
  | .warning => YELLOW
  | .error => RED
  | .fatal => BRED
  | .off => RESET_COLORS

/-- `console_log` from log.cpp: the line written to `std::clog` for one
record. The four booleans model the build toggles `UHD_LOG_CONSOLE_COLOR`,
`UHD_LOG_CONSOLE_TIME`, `UHD_LOG_CONSOLE_THREAD` and `UHD_LOG_CONSOLE_SRC`;
`std::endl` is the trailing newline, and streaming the severity prints its
name. -/
def console_log (color time thread src : Bool) (log_info : logging_info) :
    String :=
  (if color then verbosity_color log_info.verbosity else "")
  ++ (if time then "[" ++ log_info.time ++ "] " else "")
  ++ (if thread then "[0x" ++ log_info.thread_id ++ "] " else "")
  ++ (if src then
        "[" ++ path_to_filename log_info.file ++ ":" ++ toString log_info.line ++ "] "
      else "")
  ++ "[" ++ log_info.verbosity.name ++ "] "
  ++ "[" ++ log_info.component ++ "] "
  ++ (if color then RESET_COLORS else "")
  ++ log_info.message
  ++ "\n"

/-- The state of a `file_logger_backend`: whether `_file_stream` is open, and
the lines written to it so far. -/
structure file_logger_backend where
  is_open : Bool
  contents : List String
deriving DecidableEq, Repr

/-- `file_logger_backend::file_logger_backend`: when the path is non-empty,
try to open it in append mode; a failed open is caught and one diagnostic is
written to `std::cerr` (the console), leaving the stream closed. The result
is the backend state together with the number of diagnostics written to the
console. `open_succeeds` models the filesystem outcome of the `open` call. -/
def file_logger_backend_init (file_path : String) (open_succeeds : Bool) :
    file_logger_backend × Nat :=
  if file_path = "" then ({ is_open := false, contents := [] }, 0)
  else if open_succeeds then ({ is_open := true, contents := [] }, 0)
  else ({ is_open := false, contents := [] }, 1)

/-- The line `file_logger_backend::log` streams for one record: timestamp,
`,`, `0x` and the thread id, `,`, filename`:`line, `,`, the severity name,
`,`, the component, `,`, the message, then `std::endl`. -/
def file_log_line (log_info : logging_info) : String :=
  log_info.time ++ "," ++ "0x" ++ log_info.thread_id ++ ","
  ++ path_to_filename log_info.file ++ ":" ++ toString log_info.line ++ ","
  ++ log_info.verbosity.name ++ "," ++ log_info.component ++ ","
  ++ log_info.message ++ "\n"

/-- `file_logger_backend::log`: write one formatted line when the stream is
open, otherwise do nothing. -/
def file_logger_backend.log (b : file_logger_backend)
    (log_info : logging_info) : file_logger_backend :=
  if b.is_open then { b with contents := b.contents ++ [file_log_line log_info] }
  else b

/-- Comma-joining of fields, as the spec words the file format. -/
def comma_join : List String → String
  | [] => ""
  | [x] => x
  | x :: xs => x ++ "," ++ comma_join xs

/-- The file output format as the spec words it: fields comma-joined in the
order timestamp, thread-id prefixed with `0x`, `file:line`, severity name,
component, message; newline-terminated. -/
def file_line_spec (r : logging_info) : String :=
  comma_join
    [r.time, "0x" ++ r.thread_id,
     path_to_filename r.file ++ ":" ++ toString r.line,
     r.verbosity.name, r.component, r.message] ++ "\n"

/-- The console output format as claim C7 words it: the optional fields in
order color, timestamp, thread, `file:line` (each omitted when its toggle is
off), the always-present bracketed severity and component, then the message
text, then the color reset at line end. -/
def console_line_claimed (color time thread src : Bool) (r : logging_info) :
    String :=
  (if color then verbosity_color r.verbosity else "")
  ++ (if time then "[" ++ r.time ++ "] " else "")
  ++ (if thread then "[0x" ++ r.thread_id ++ "] " else "")
  ++ (if src then
        "[" ++ path_to_filename r.file ++ ":" ++ toString r.line ++ "] "
      else "")
  ++ "[" ++ r.verbosity.name ++ "] "
  ++ "[" ++ r.component ++ "] "
  ++ r.message
  ++ (if color then RESET_COLORS else "")
  ++ "\n"

/-- The console output format as amended: the optional prefix fields in order
color, timestamp, thread, `file:line`, each omitted entirely when its toggle
is off, then the bracketed severity and component, then the color reset
(when color is on), then the message, newline-terminated. -/
def console_line_amended (color time thread src : Bool) (r : logging_info) :
    String :=
  String.join (List.filterMap id
    [ if color then some (verbosity_color r.verbosity) else none,
      if time then some ("[" ++ r.time ++ "] ") else none,
      if thread then some ("[0x" ++ r.thread_id ++ "] ") else none,
      if src then
        some ("[" ++ path_to_filename r.file ++ ":" ++ toString r.line ++ "] ")
      else none ])
  ++ "[" ++ r.verbosity.name ++ "] " ++ "[" ++ r.component ++ "] "
  ++ (if color then RESET_COLORS else "") ++ r.message ++ "\n"

theorem mem_deliver_record_iff {α : Type} (st : log_resource_state α)
    (r : logging_info) (key : String) (fn : α) :
    (key, fn) ∈ deliver_record st r ↔
      ((key, fn) ∈ st.loggers ∧
        ∀ t, map_find st.logger_level key = some t → t.toNat ≤ r.verbosity.toNat) := by
  unfold deliver_record
  rw [List.mem_filter]
  cases h : map_find st.logger_level key <;> simp [h, Nat.not_lt]

theorem map_assign_assign {α : Type} (m : List (String × α)) (k : String)
    (v1 v2 : α) : map_assign (map_assign m k v1) k v2 = map_assign m k v2 := by
  induction m with
  | nil => simp [map_assign]
  | cons hd tl ih =>
    obtain ⟨k2, v⟩ := hd
    by_cases h : k2 = k <;> simp [map_assign, h, ih]

theorem mem_keys_map_assign {α : Type} (m : List (String × α)) (k a : String)
    (v : α) :
    (a ∈ (map_assign m k v).map Prod.fst) ↔ (a ∈ m.map Prod.fst ∨ a = k) := by
  induction m with
  | nil => simp [map_assign]
  | cons hd tl ih =>
    obtain ⟨k2, v2⟩ := hd
    by_cases h : k2 = k <;> simp [map_assign, h, ih] <;> tauto

theorem map_assign_keys_nodup {α : Type} (m : List (String × α)) (k : String)
    (v : α) (h : (m.map Prod.fst).Nodup) :
    ((map_assign m k v).map Prod.fst).Nodup := by
  induction m with
  | nil => simp [map_assign]
  | cons hd tl ih =>
    obtain ⟨k2, v2⟩ := hd
    simp only [List.map_cons, List.nodup_cons] at h
    by_cases hk : k2 = k
    · subst hk
      simp [map_assign, List.nodup_cons, h.1, h.2]
    · simp only [map_assign, if_neg hk, List.map_cons, List.nodup_cons]
      refine ⟨fun hmem => ?_, ih h.2⟩
      rcases (mem_keys_map_assign tl k k2 v).mp hmem with h2 | h2
      · exact h.1 h2
      · exact hk h2

theorem map_find_assign_self {α : Type} (m : List (String × α)) (k : String)
    (v : α) : map_find (map_assign m k v) k = some v := by
  induction m with
  | nil => simp [map_assign, map_find]
  | cons hd tl ih =>
    obtain ⟨k2, v2⟩ := hd
    by_cases h : k2 = k <;> simp [map_assign, map_find, h, ih]

theorem map_find_assign_ne {α : Type} (m : List (String × α)) (k k2 : String)
    (v : α) (h : k2 ≠ k) :
    map_find (map_assign m k v) k2 = map_find m k2 := by
  induction m with
  | nil => simp [map_assign, map_find, Ne.symm h]
  | cons hd tl ih =>
    obtain ⟨k3, v3⟩ := hd
    by_cases h3 : k3 = k <;> by_cases h32 : k3 = k2 <;>
      simp_all [map_assign, map_find]

theorem foldl_log_closed (b : file_logger_backend) (h : b.is_open = false)
    (rs : List logging_info) : rs.foldl file_logger_backend.log b = b := by
  induction rs with
  | nil => rfl
  | cons r rs ih => simpa [file_logger_backend.log, h] using ih

theorem file_log_line_eq_spec (r : logging_info) :
    file_log_line r = file_line_spec r := by
  apply String.ext
  simp [file_log_line, file_line_spec, comma_join, String.data_append]

theorem of_ordinal_isSome (n : Nat) (h : n ≤ 5) :
    (severity_level.of_ordinal n).isSome := by
  interval_cases n <;> rfl

/-- C1: a record that reaches the consumer loop is delivered to a registered
sink if and only if its severity is at least that sink's per-sink threshold;
when `logger_level` has no entry for the sink's key, the record is always
delivered. -/
theorem C1_per_sink_filtering {α : Type} (st : log_resource_state α)
    (r : logging_info) (key : String) (fn : α)
    (hreg : (key, fn) ∈ st.loggers) :
    ((key, fn) ∈ deliver_record st r ↔
      ∀ t, map_find st.logger_level key = some t →
        t.toNat ≤ r.verbosity.toNat) := by
  rw [mem_deliver_record_iff]
  simp [hreg]

/-- Witness for C1: in a state with a `console` sink thresholded at `info`,
a `warning` record is delivered to it. -/
theorem C1_per_sink_filtering_witness :
    ("console", 7) ∈
      deliver_record
        { global_level := .off, logger_level := [("console", .info)],
          loggers := [("console", 7), ("custom", 8)] }
        { time := "T", verbosity := .warning, file := "f.cpp", line := 1,
          component := "C", thread_id := "1a", message := "m" } :=
  (C1_per_sink_filtering _ _ "console" 7 (by decide)).mpr (by decide)

/-- C2: a Log Statement evaluates `verbosity >= global_level` once at
construction and caches it in `_log_it`; on destruction a record is pushed
onto the queue if and only if the cached check was true. -/
theorem C2_construction_filter (v : severity_level) (f : String) (l : Nat)
    (comp tid time msg : String) (g : severity_level) :
    (log_construct v f l comp tid time g).log_it = decide (g.toNat ≤ v.toNat)
    ∧ ((log_destruct (log_construct v f l comp tid time g) msg).isSome
        = decide (g.toNat ≤ v.toNat)) := by
  unfold log_construct log_destruct
  by_cases h : g.toNat ≤ v.toNat <;> simp [h]

/-- C3 counterexample: the input `bogus` is invalid, yet `_get_log_level`
returns the previous level without logging any internal error; and the
numeric input `9999999999` (above `INT_MAX`) makes the uncaught
`std::out_of_range` from `std::stoi` propagate to the caller instead of
keeping the previous threshold. -/
theorem C3_counterexample :
    parse_accepts "bogus" = false
    ∧ get_log_level "bogus" .info
        = .ret { level := .info, errorLogged := false }
    ∧ parse_accepts "9999999999" = false
    ∧ get_log_level "9999999999" .info = .raised := by decide

/-- C3 (amended): `_get_log_level` accepts a numeric ordinal in
`[trace, fatal]` or a case-sensitive enumerator name, and an accepted input
yields its level whatever the previous level was, without logging; the call
raises (uncaught `std::out_of_range` from `std::stoi`) exactly for numeric
input whose value exceeds `INT_MAX`; when it returns, an internal error is
logged exactly for numeric input whose value is out of range, and every
invalid input falls back to the previous level. -/
theorem C3_parse_level (s : String) (prev : severity_level) :
    ((get_log_level s prev = .raised)
        ↔ (first_char_is_digit s = true ∧ stoi s = none))
    ∧ (∀ r, get_log_level s prev = .ret r →
        r.errorLogged = (first_char_is_digit s && !parse_accepts s))
    ∧ (parse_accepts s = false →
        ∀ r, get_log_level s prev = .ret r → r.level = prev)
    ∧ (parse_accepts s = true → ∃ lv, ∀ prev2 : severity_level,
        get_log_level s prev2 = .ret { level := lv, errorLogged := false }) := by
  unfold get_log_level parse_accepts
  by_cases hd : first_char_is_digit s = true
  · cases hstoi : stoi s with
    | none => simp [hd, hstoi]
    | some n =>
      by_cases hr : severity_level.trace.toNat ≤ n
          ∧ n ≤ severity_level.fatal.toNat
      · obtain ⟨lv, hlv⟩ := Option.isSome_iff_exists.mp (of_ordinal_isSome n hr.2)
        simp [hd, hstoi, hr, hlv]
        exact ⟨lv, fun _ => rfl⟩
      · simp [hd, hstoi, hr]
  · simp only [eq_false hd, Bool.false_and, if_false, Bool.false_eq_true]
    split_ifs <;> simp_all
    all_goals exact ⟨_, fun _ => rfl⟩

/-- Witness for C3: the over-`INT_MAX` numeral `9999999999` raises; the
invalid name `bad` keeps the previous level `debug`; the valid ordinal `3`
parses independently of the previous level. -/
theorem C3_parse_level_witness :
    get_log_level "9999999999" severity_level.info = .raised
    ∧ ({ level := severity_level.debug, errorLogged := false } :
        get_log_level_result).level = severity_level.debug
    ∧ get_log_level "3" severity_level.off = get_log_level "3" severity_level.fatal := by
  refine ⟨(C3_parse_level "9999999999" .info).1.mpr (by decide), ?_, ?_⟩
  · exact (C3_parse_level "bad" .debug).2.2.1 (by decide)
      { level := severity_level.debug, errorLogged := false } (by decide)
  · obtain ⟨lv, hlv⟩ := (C3_parse_level "3" .off).2.2.2 (by decide)
    exact (hlv .off).trans (hlv .fatal).symm

/-- C4: when opening a non-empty target path fails, the file sink writes
exactly one diagnostic to the console's error stream, never has an open
handle, and every subsequent sequence of log calls leaves it unchanged (each
call is a no-op). -/
theorem C4_file_open_failure (path : String) (h : path ≠ "") :
    (file_logger_backend_init path false).2 = 1
    ∧ (file_logger_backend_init path false).1.is_open = false
    ∧ (file_logger_backend_init path false).1.contents = []
    ∧ ∀ rs : List logging_info,
        rs.foldl file_logger_backend.log (file_logger_backend_init path false).1
          = (file_logger_backend_init path false).1 := by
  refine ⟨?_, ?_, ?_, ?_⟩ <;>
    simp only [file_logger_backend_init, if_neg h, Bool.false_eq_true, if_false]
  intro rs
  exact foldl_log_closed _ rfl rs

/-- Witness for C4 at the concrete path `uhd.log` and two records. -/
theorem C4_file_open_failure_witness :
    (file_logger_backend_init "uhd.log" false).2 = 1
    ∧ (file_logger_backend_init "uhd.log" false).1.is_open = false
    ∧ (file_logger_backend_init "uhd.log" false).1.contents = []
    ∧ [{ time := "T", verbosity := .info, file := "f.cpp", line := 1,
         component := "C", thread_id := "1a", message := "m" },
       { time := "T", verbosity := .fatal, file := "f.cpp", line := 2,
         component := "C", thread_id := "1a", message := "n" }].foldl
        file_logger_backend.log (file_logger_backend_init "uhd.log" false).1
      = (file_logger_backend_init "uhd.log" false).1 :=
  ⟨(C4_file_open_failure "uhd.log" (by decide)).1,
   (C4_file_open_failure "uhd.log" (by decide)).2.1,
   (C4_file_open_failure "uhd.log" (by decide)).2.2.1,
   (C4_file_open_failure "uhd.log" (by decide)).2.2.2 _⟩

/-- C5: the exit drain of `pop_task` delivers a (key, record) pair exactly
when the record was still in the queue, the key is a registered sink, and the
record passes the same per-sink filter as in normal operation; in particular
no queued record passing the filter is dropped. -/
theorem C5_shutdown_drain {α : Type} (st : log_resource_state α)
    (queue : List logging_info) (key : String) (r : logging_info) :
    ((key, r) ∈ pop_task_drain st queue ↔
      (r ∈ queue ∧ ∃ fn, (key, fn) ∈ st.loggers ∧
        ∀ t, map_find st.logger_level key = some t →
          t.toNat ≤ r.verbosity.toNat)) := by
  unfold pop_task_drain
  simp only [List.mem_flatten, List.mem_map]
  constructor
  · rintro ⟨_, ⟨r2, hr2, rfl⟩, hmem⟩
    simp only [List.mem_map] at hmem
    obtain ⟨⟨k2, fn⟩, hdel, heq⟩ := hmem
    injection heq with h1 h2
    subst h1
    subst h2
    rw [mem_deliver_record_iff] at hdel
    exact ⟨hr2, fn, hdel.1, hdel.2⟩
  · rintro ⟨hq, fn, hreg, hpass⟩
    refine ⟨(deliver_record st r).map (fun logger => (logger.1, r)),
      ⟨r, hq, rfl⟩, ?_⟩
    simp only [List.mem_map]
    exact ⟨(key, fn), (mem_deliver_record_iff st r key fn).mpr ⟨hreg, hpass⟩, rfl⟩

/-- Witness for C5: a queued `warning` record is delivered to the `console`
sink (threshold `info`) by the exit drain. -/
theorem C5_shutdown_drain_witness :
    ("console",
      ({ time := "T", verbosity := .warning, file := "f.cpp", line := 1,
         component := "C", thread_id := "1a", message := "m" } : logging_info)) ∈
      pop_task_drain
        { global_level := .off, logger_level := [("console", .info)],
          loggers := [("console", 7)] }
        [{ time := "T", verbosity := .warning, file := "f.cpp", line := 1,
           component := "C", thread_id := "1a", message := "m" }] :=
  (C5_shutdown_drain _ _ "console" _).mpr
    ⟨List.mem_singleton.mpr rfl, 7, List.mem_singleton.mpr rfl,
     fun t ht => by
      injection ht with ht2
      subst ht2
      decide⟩

/-- C6: a record written by the file sink appends exactly one
newline-terminated line whose fields are comma-joined in the order timestamp,
`0x`-prefixed thread id, `file:line`, severity name, component, message. -/
theorem C6_file_format (r : logging_info) (prev : List String) :
    (file_logger_backend.log { is_open := true, contents := prev } r).contents
      = prev ++ [file_line_spec r] := by
  simp [file_logger_backend.log, file_log_line_eq_spec]

/-- C7 counterexample: with every console toggle on, the line written by
`console_log` is not the line the claim describes (reset at line end): the
code emits the color reset before the message, not after it. -/
theorem C7_counterexample :
    console_log true true true true
        { time := "T", verbosity := .info, file := "a/b.cpp", line := 5,
          component := "C", thread_id := "1a", message := "m" }
      ≠ console_line_claimed true true true true
        { time := "T", verbosity := .info, file := "a/b.cpp", line := 5,
          component := "C", thread_id := "1a", message := "m" } := by decide

/-- C7 (amended): the console line is the optional fields color, timestamp,
thread and `file:line` in that order (each omitted entirely when its toggle
is off), then the bracketed severity and component, then the color reset
(when color is on) immediately before the message, then the message,
newline-terminated. -/
theorem C7_console_format (color time thread src : Bool) (r : logging_info) :
    console_log color time thread src r
      = console_line_amended color time thread src r := by
  apply String.ext
  cases color <;> cases time <;> cases thread <;> cases src <;>
    simp [console_log, console_line_amended, String.join, String.data_append]

/-- C8: `add_logger` on an already-registered key replaces that sink:
registering twice under a key equals registering once with the later sink,
the key set stays duplicate-free, and a record is delivered at most once per
key. -/
theorem C8_add_logger_replaces {α : Type} (st : log_resource_state α)
    (key : String) (f1 f2 : α) (h : (st.loggers.map Prod.fst).Nodup) :
    add_logger (add_logger st key f1) key f2 = add_logger st key f2
    ∧ (((add_logger st key f2).loggers.map Prod.fst).Nodup)
    ∧ ∀ r : logging_info,
        ((deliver_record (add_logger st key f2) r).map Prod.fst).count key ≤ 1 := by
  refine ⟨?_, map_assign_keys_nodup st.loggers key f2 h, fun r => ?_⟩
  · simp [add_logger, map_assign_assign]
  · have hsub : ((deliver_record (add_logger st key f2) r).map Prod.fst).Sublist
        ((add_logger st key f2).loggers.map Prod.fst) :=
      (List.filter_sublist _).map Prod.fst
    have hnd := map_assign_keys_nodup st.loggers key f2 h
    calc ((deliver_record (add_logger st key f2) r).map Prod.fst).count key
        ≤ ((add_logger st key f2).loggers.map Prod.fst).count key :=
          hsub.count_le key
      _ ≤ 1 := List.nodup_iff_count_le_one.mp hnd key

/-- Witness for C8 at a concrete state: re-registering `console` leaves one
active console sink and single delivery. -/
theorem C8_add_logger_replaces_witness :
    add_logger (add_logger
        { global_level := .off, logger_level := [("console", .info)],
          loggers := [("console", 5)] } "console" 7) "console" 9
      = add_logger
        { global_level := .off, logger_level := [("console", .info)],
          loggers := [("console", 5)] } "console" 9
    ∧ (((add_logger
        { global_level := .off, logger_level := [("console", .info)],
          loggers := [("console", 5)] } "console" 9).loggers.map Prod.fst).Nodup)
    ∧ ((deliver_record (add_logger
        { global_level := .off, logger_level := [("console", .info)],
          loggers := [("console", 5)] } "console" 9)
        { time := "T", verbosity := .warning, file := "f.cpp", line := 1,
          component := "C", thread_id := "1a", message := "m" }).map
        Prod.fst).count "console" ≤ 1 :=
  ⟨(C8_add_logger_replaces _ "console" 7 9 (by decide)).1,
   (C8_add_logger_replaces _ "console" 7 9 (by decide)).2.1,
   (C8_add_logger_replaces _ "console" 7 9 (by decide)).2.2 _⟩

/-- C9: with no `UHD_LOG_MIN_LEVEL` macro and no non-empty `UHD_LOG_LEVEL`
environment variable, the global threshold initializes to `off` (no
exception path is reached), and a Log Statement of any actual severity
(trace through fatal) under that threshold then enqueues nothing. -/
theorem C9_default_global_level_off (v : severity_level) (f : String)
    (l : Nat) (comp tid time msg : String) (hv : v ≠ severity_level.off) :
    init_global_level none none = some severity_level.off
    ∧ init_global_level none (some "") = some severity_level.off
    ∧ log_destruct
        (log_construct v f l comp tid time severity_level.off) msg
      = none := by
  refine ⟨rfl, rfl, ?_⟩
  have hlt : v.toNat < severity_level.off.toNat := by
    cases v <;> first | decide | exact absurd rfl hv
  simp [log_construct, log_destruct, Nat.not_le.mpr hlt]

/-- Witness for C9: a `fatal` statement is discarded under the default
threshold. -/
theorem C9_default_global_level_off_witness :
    init_global_level none none = some severity_level.off
    ∧ init_global_level none (some "") = some severity_level.off
    ∧ log_destruct
        (log_construct .fatal "f.cpp" 1 "C" "1a" "T" severity_level.off) "m"
      = none :=
  C9_default_global_level_off .fatal "f.cpp" 1 "C" "1a" "T" "m" (by decide)

/-- C10: `set_logger_level` changes only the given key's per-sink threshold,
leaving the global threshold, every other key's threshold, and the sink
registry unchanged; `add_logger` changes only the sink registered under the
given key, leaving the global and all per-sink thresholds unchanged. -/
theorem C10_frame_conditions {α : Type} (st : log_resource_state α)
    (key : String) (lvl : severity_level) (fn : α) :
    (set_logger_level st key lvl).global_level = st.global_level
    ∧ (set_logger_level st key lvl).loggers = st.loggers
    ∧ map_find (set_logger_level st key lvl).logger_level key = some lvl
    ∧ (∀ k2, k2 ≠ key →
        map_find (set_logger_level st key lvl).logger_level k2
          = map_find st.logger_level k2)
    ∧ (add_logger st key fn).global_level = st.global_level
    ∧ (add_logger st key fn).logger_level = st.logger_level
    ∧ map_find (add_logger st key fn).loggers key = some fn
    ∧ (∀ k2, k2 ≠ key →
        map_find (add_logger st key fn).loggers k2 = map_find st.loggers k2) := by
  refine ⟨rfl, rfl, map_find_assign_self _ _ _, fun k2 h2 => ?_, rfl, rfl,
    map_find_assign_self _ _ _, fun k2 h2 => ?_⟩
  · exact map_find_assign_ne st.logger_level key k2 lvl h2
  · exact map_find_assign_ne st.loggers key k2 fn h2

/-- Witness for C10 at a concrete state, with `file` updated and `console`
untouched. -/
theorem C10_frame_conditions_witness :
    (set_logger_level
        { global_level := .info, logger_level := [("console", .info)],
          loggers := [("console", 5)] } "file" .error).global_level
      = severity_level.info
    ∧ map_find (set_logger_level
        { global_level := .info, logger_level := [("console", .info)],
          loggers := [("console", 5)] } "file" .error).logger_level "file"
      = some .error
    ∧ map_find (set_logger_level
        { global_level := .info, logger_level := [("console", .info)],
          loggers := [("console", 5)] } "file" .error).logger_level "console"
      = map_find [("console", severity_level.info)] "console"
    ∧ map_find (add_logger
        { global_level := .info, logger_level := [("console", .info)],
          loggers := [("console", 5)] } "file" 9).loggers "console"
      = map_find [("console", 5)] "console" :=
  ⟨(C10_frame_conditions _ "file" .error 9).1,
   (C10_frame_conditions _ "file" .error 9).2.2.1,
   (C10_frame_conditions _ "file" .error 9).2.2.2.1 "console" (by decide),
   (C10_frame_conditions _ "file" .error 9).2.2.2.2.2.2.2 "console" (by decide)⟩

end UhdLog
